import Mathlib

/-!
Verification of the translation-evaluation pipeline in
`src/evaluate_translation.py`: response extraction, similarity scoring,
per-case evaluation, aggregation and the pass/fail gate.

Strings are modelled as Lean `String`s; the Python string predicates
(`str.isspace`, `str.isalnum`, `str.lower`) are reproduced over the
Basic Latin and Latin-1 ranges, which cover every character appearing
in the repository's dataset, tests and scenarios.  Scores are rational
numbers.  The external agent and the external exact-match evaluator are
modelled as function parameters returning `Except`, mirroring calls
that can raise; the regular-expression searches of the extractor are
modelled as explicit scanning functions with Python `re.search`
semantics (leftmost match, greedy quantifiers, `.` not crossing a
newline, `IGNORECASE`).
-/

/-- Python `str.isspace` / regex whitespace class, over Basic Latin,
Latin-1 and the dedicated Unicode space code points. -/
def pyIsSpace (c : Char) : Bool :=
  let n := c.toNat
  (9 ≤ n && n ≤ 13) || n = 32 || (28 ≤ n && n ≤ 31) || n = 0x85 || n = 0xA0 ||
  n = 0x1680 || (0x2000 ≤ n && n ≤ 0x200A) || n = 0x2028 || n = 0x2029 ||
  n = 0x202F || n = 0x205F || n = 0x3000

/-- Python `str.isalnum` over Basic Latin and Latin-1: ASCII digits and
letters, the Latin-1 letters (including `ó`), and the Latin-1 numeric
characters.  Every character in the repository's dataset lies in range. -/
def pyIsAlnum (c : Char) : Bool :=
  let n := c.toNat
  (48 ≤ n && n ≤ 57) || (65 ≤ n && n ≤ 90) || (97 ≤ n && n ≤ 122) ||
  n = 0xAA || n = 0xB5 || n = 0xBA || n = 0xB2 || n = 0xB3 || n = 0xB9 ||
  (0xBC ≤ n && n ≤ 0xBE) || (0xC0 ≤ n && n ≤ 0xD6) ||
  (0xD8 ≤ n && n ≤ 0xF6) || (0xF8 ≤ n && n ≤ 0xFF)

/-- Python `str.lower` on a single character, over Basic Latin and
Latin-1 (uppercase ASCII and the Latin-1 uppercase letters map down by
32, exactly as in Python). -/
def pyToLowerChar (c : Char) : Char :=
  let n := c.toNat
  if (65 ≤ n && n ≤ 90) || (0xC0 ≤ n && n ≤ 0xD6) || (0xD8 ≤ n && n ≤ 0xDE) then
    Char.ofNat (n + 32)
  else c

/-- Python `str.lower`. -/
def pyLower (s : String) : String := String.mk (s.data.map pyToLowerChar)

/-- Drop leading and trailing Python whitespace from a character list. -/
def stripList (l : List Char) : List Char :=
  ((l.dropWhile pyIsSpace).reverse.dropWhile pyIsSpace).reverse

/-- Python `str.strip()` with no arguments. -/
def pyStrip (s : String) : String := String.mk (stripList s.data)

/-- Accumulator worker for Python `str.split()`: runs of whitespace
separate words, empty fragments are discarded. -/
def pyWordsAux : List Char → List Char → List String
  | [], acc => if acc.isEmpty then [] else [String.mk acc.reverse]
  | c :: rest, acc =>
      if pyIsSpace c then
        if acc.isEmpty then pyWordsAux rest []
        else String.mk acc.reverse :: pyWordsAux rest []
      else pyWordsAux rest (c :: acc)

/-- Python `str.split()` with no arguments. -/
def pyWords (s : String) : List String := pyWordsAux s.data []

/-- Cardinality of the token set `set(s.split())`. -/
def wordSetCard (s : String) : Nat := (pyWords s).toFinset.card

/-- Cardinality of `set(p.split()).intersection(set(r.split()))`. -/
def wordOverlapCard (p r : String) : Nat :=
  ((pyWords p).toFinset ∩ (pyWords r).toFinset).card

/-- The set `set(char for char in s if char.isalnum())`. -/
def alnumSet (s : String) : Finset Char := (s.data.filter pyIsAlnum).toFinset

/-- Cardinality of the alphanumeric character set of `s`. -/
def charSetCard (s : String) : Nat := (alnumSet s).card

/-- Cardinality of `pred_chars.intersection(ref_chars)`. -/
def charOverlapCard (p r : String) : Nat := (alnumSet p ∩ alnumSet r).card

/-- The similarity scorer of `evaluate_translation.py`
(`calculate_similarity_score`, lines 81-132): empty-argument guard,
lower-case/strip normalisation, exact match, word-overlap ratio with a
0.7 shortcut, then a character-overlap fallback discounted to 0.8
weight.  Python's falsiness tests `if not prediction`, `if not
ref_words` and `if ref_chars` become the equivalent emptiness tests
(a set is falsy exactly when its cardinality is zero); the `try` block
around the character step cannot raise, so no exceptional branch is
modelled. -/
def calculate_similarity_score (prediction reference : String) : ℚ :=
  if prediction = "" ∨ reference = "" then 0
  else
    let pred_normalized := pyStrip (pyLower prediction)
    let ref_normalized := pyStrip (pyLower reference)
    if pred_normalized = ref_normalized then 1
    else if wordSetCard ref_normalized = 0 then 0
    else
      let word_score : ℚ :=
        (wordOverlapCard pred_normalized ref_normalized : ℚ) /
          (wordSetCard ref_normalized : ℚ)
      if (7 : ℚ)/10 ≤ word_score then word_score
      else if charSetCard ref_normalized = 0 then word_score
      else
        let char_score : ℚ :=
          (charOverlapCard pred_normalized ref_normalized : ℚ) /
            (charSetCard ref_normalized : ℚ)
        max word_score (char_score * ((8 : ℚ)/10))

/-- True exactly for the two quote characters of the character class
`["\']` in the extraction patterns (code points 34 and 39). -/
def isQuoteChar (c : Char) : Bool := c.toNat = 34 || c.toNat = 39

/-- Matcher for the regex tail `["\']([^"\']+)["\']` at the head of
`l`: an opening quote of either kind, a non-empty greedy run of
non-quote characters (the capture), and a closing quote of either
kind.  Both greedy pieces are deterministic: backtracking on the
capture can never produce a quote at the closing position. -/
def matchQuoted (l : List Char) : Option (List Char) :=
  match l with
  | [] => none
  | c :: rest =>
    if isQuoteChar c then
      let content := rest.takeWhile (fun d => !isQuoteChar d)
      let after := rest.drop content.length
      if content.isEmpty then none
      else match after with
        | [] => none
        | _ :: _ => some content
    else none

/-- Matcher for `\s*["\']([^"\']+)["\']` at the head of `l`: greedy
whitespace (backtracking cannot help, a quote is never whitespace),
then the quoted capture. -/
def matchSpacesQuoted (l : List Char) : Option (List Char) :=
  matchQuoted (l.dropWhile pyIsSpace)

/-- Matcher for `is\s*["\']([^"\']+)["\']` at the head of `l`,
case-insensitive on the literal `is`. -/
def matchIsQuoted (l : List Char) : Option (List Char) :=
  match l with
  | c1 :: c2 :: rest =>
    if pyToLowerChar c1 = 'i' ∧ pyToLowerChar c2 = 's' then
      matchSpacesQuoted rest
    else none
  | _ => none

/-- Search with Python `re.search` of the second pattern `is\s*["\']([^"\']+)["\']`:
scan left to right, return the capture of the leftmost match. -/
def searchIsQuoted : List Char → Option (List Char)
  | [] => none
  | c :: rest =>
    match matchIsQuoted (c :: rest) with
    | some cap => some cap
    | none => searchIsQuoted rest

/-- Search with Python `re.search` of the third pattern `["\']([^"\']+)["\']`: scan left
to right, return the capture of the leftmost quoted substring. -/
def searchQuoted : List Char → Option (List Char)
  | [] => none
  | c :: rest =>
    match matchQuoted (c :: rest) with
    | some cap => some cap
    | none => searchQuoted rest

/-- Case-insensitive literal matcher: `dropLitCI lit l` consumes `lit`
(given in lower case) from the head of `l`, comparing lowered
characters, and returns the remainder. -/
def dropLitCI : List Char → List Char → Option (List Char)
  | [], l => some l
  | _ :: _, [] => none
  | p :: ps, c :: cs => if pyToLowerChar c = p then dropLitCI ps cs else none

/-- The tail `.*is\s*["\']([^"\']+)["\']` of the first pattern,
starting right after the literal `translation`: `.` does not cross a
newline, and the greedy `.*` backtracks from the longest stretch, so
the LAST offset within the line at which `is\s*["\']...` matches is
the one captured. -/
def searchTailFrom (m : List Char) : Option (List Char) :=
  let lineLen := (m.takeWhile (fun c => c.toNat ≠ 10)).length
  (List.range (lineLen + 1)).reverse.findSome? (fun j => matchIsQuoted (m.drop j))

/-- The literal `translation` of the first pattern. -/
def translationLit : List Char := "translation".data

/-- Search with Python `re.search` of the first pattern
`translation.*is\s*["\']([^"\']+)["\']`: the match must start at an
occurrence of the literal `translation` (case-insensitive); the
leftmost start position admitting a full match wins, and within it the
wildcard is greedy (`searchTailFrom`). -/
def searchTranslationIs : List Char → Option (List Char)
  | [] => none
  | c :: rest =>
    match dropLitCI translationLit (c :: rest) with
    | some m =>
      match searchTailFrom m with
      | some cap => some cap
      | none => searchTranslationIs rest
    | none => searchTranslationIs rest

/-- Python `str.startswith` on character lists. -/
def listStartsWith : List Char → List Char → Bool
  | _, [] => true
  | [], _ :: _ => false
  | c :: cs, p :: ps => c = p && listStartsWith cs ps

/-- One step of the fallback prefix-stripping loop of
`extract_translation_from_response` (lines 73-75): if `r` starts with
the literal `p`, drop it and strip the remainder. -/
def stripOnePre (r p : String) : String :=
  if listStartsWith r.data p.data then pyStrip (String.mk (r.data.drop p.data.length))
  else r

/-- The fallback prefix-stripping loop over `"Translation:"`,
`"Result:"`, `"Output:"`, applied sequentially in that order. -/
def stripPrefixes (r : String) : String :=
  [("Translation:"), ("Result:"), ("Output:")].foldl stripOnePre r

/-- The response extractor of `evaluate_translation.py`
(`extract_translation_from_response`, lines 36-78): empty guard, the
three patterns tried in order with `re.search` (the capture is
stripped), then the trimmed raw response with known prefixes
stripped. -/
def extract_translation_from_response (response : String) : String :=
  if response = "" then ""
  else
    match searchTranslationIs response.data with
    | some cap => String.mk (stripList cap)
    | none =>
      match searchIsQuoted response.data with
      | some cap => String.mk (stripList cap)
      | none =>
        match searchQuoted response.data with
        | some cap => String.mk (stripList cap)
        | none => stripPrefixes (pyStrip response)

/-- Index (0, 1 or 2) of the first pattern of the ordered pattern list
that matches the response, mirroring the `for pattern in patterns`
loop; `none` when no pattern matches. -/
def firstMatchingRule (response : String) : Option Nat :=
  match searchTranslationIs response.data with
  | some _ => some 0
  | none =>
    match searchIsQuoted response.data with
    | some _ => some 1
    | none =>
      match searchQuoted response.data with
      | some _ => some 2
      | none => none

/-- One evaluation case of the dataset (an `input`/`reference` pair). -/
structure TestCase where
  input : String
  reference : String
  deriving DecidableEq

/-- One per-case record appended by `evaluate_translations`
(lines 221-242); `error` is `none` on the success path, where the
source omits the key. -/
structure EvalResult where
  test_case : Nat
  input : String
  reference : String
  raw_prediction : String
  prediction : String
  score : ℚ
  error : Option String
  deriving DecidableEq

/-- One iteration of the `for i, test_case in enumerate(DATASET)` loop
(lines 206-242): invoke the agent capability, extract the prediction,
run the exact-match evaluator capability; an exception raised by
either external call (`Except.error`) is caught and recorded as a
zero-scored result carrying the message. -/
def runCase (invoke : String → Except String String)
    (evalExact : String → String → Except String ℚ)
    (i : Nat) (tc : TestCase) : EvalResult :=
  match invoke tc.input with
  | Except.error e =>
      { test_case := i, input := tc.input, reference := tc.reference,
        raw_prediction := "", prediction := "", score := 0, error := some e }
  | Except.ok raw_prediction =>
      let prediction := extract_translation_from_response raw_prediction
      match evalExact prediction tc.reference with
      | Except.error e =>
          { test_case := i, input := tc.input, reference := tc.reference,
            raw_prediction := "", prediction := "", score := 0, error := some e }
      | Except.ok score =>
          { test_case := i, input := tc.input, reference := tc.reference,
            raw_prediction := raw_prediction, prediction := prediction,
            score := score, error := none }

/-- The enumerated loop, accumulating one result per case in dataset
order, starting at index `i`. -/
def evalLoop (invoke : String → Except String String)
    (evalExact : String → String → Except String ℚ) :
    Nat → List TestCase → List EvalResult
  | _, [] => []
  | i, tc :: rest =>
      runCase invoke evalExact i tc :: evalLoop invoke evalExact (i + 1) rest

/-- The case runner `evaluate_translations` (lines 185-249), with the external agent
(`agent.invoke`, read through its `output` field) and the external
exact-match evaluator passed as capabilities — the spec's §4.3
contract `run(dataset, translate)`.  Both capabilities return
`Except`, mirroring calls that can raise. -/
def evaluate_translations (invoke : String → Except String String)
    (evalExact : String → String → Except String ℚ)
    (dataset : List TestCase) : List EvalResult :=
  evalLoop invoke evalExact 0 dataset

/-- The module's fixed two-case dataset (lines 30-33). -/
def DATASET : List TestCase :=
  [{ input := "Spanish | cloud payroll", reference := "nube nómina" },
   { input := "German | Workday payroll", reference := "Workday Lohnabrechnung" }]

/-- Per-result final score `max(exact_score, similarity_score)`
(line 170). -/
def finalScore (r : EvalResult) : ℚ :=
  max r.score (calculate_similarity_score r.prediction r.reference)

/-- The aggregator `calculate_bleu_score` (lines 135-182): 0.0 on an
empty result list, otherwise the mean final score as a percentage
`(total_score / total_evaluations) * 100`.  The surrounding `try`
contains no raising operation in this model, so no exceptional branch
is modelled. -/
def calculate_bleu_score (evaluation_results : List EvalResult) : ℚ :=
  if evaluation_results.isEmpty then 0
  else
    ((evaluation_results.map finalScore).sum / (evaluation_results.length : ℚ)) * 100

/-- The fixed gate threshold `BLEU_THRESHOLD = 50.0` (line 310). -/
def BLEU_THRESHOLD : ℚ := 50

/-- The gate of `main` (lines 312-317): process exit status 0 when
`bleu_score >= BLEU_THRESHOLD`, 1 otherwise. -/
def gateExitCode (bleu_score : ℚ) : Nat :=
  if BLEU_THRESHOLD ≤ bleu_score then 0 else 1

/-- The ordered pattern list of the extractor, as rule functions. -/
def extractionRules : List (List Char → Option (List Char)) :=
  [searchTranslationIs, searchIsQuoted, searchQuoted]

/-- The extractor as claim C5 (amended) words it: empty input gives an
empty output; otherwise the rules are tried in their fixed order and
the stripped capture of the leftmost `re.search` match of the first
matching rule is returned; if no rule matches, the trimmed raw
response with the literal prefixes stripped. -/
def extractSpec (response : String) : String :=
  if response = "" then ""
  else
    match extractionRules.findSome? (fun rule => rule response.data) with
    | some cap => String.mk (stripList cap)
    | none => stripPrefixes (pyStrip response)

/-- The similarity scorer as claim C1 words it: empty-argument guard;
normalised equality gives 1.0; `word_score` is the token-set overlap
ratio, 0.0 when the reference has zero tokens; `word_score ≥ 0.7`
returns it directly; otherwise, when the reference has at least one
alphanumeric character the result is
`max(word_score, 0.8 * char_ratio)`, and `word_score` alone when it
has none. -/
def similaritySpec (prediction reference : String) : ℚ :=
  if prediction = "" ∨ reference = "" then 0
  else
    let pn := pyStrip (pyLower prediction)
    let rn := pyStrip (pyLower reference)
    if pn = rn then 1
    else
      let word_score : ℚ :=
        if wordSetCard rn = 0 then 0
        else (wordOverlapCard pn rn : ℚ) / (wordSetCard rn : ℚ)
      if (7 : ℚ)/10 ≤ word_score then word_score
      else if charSetCard rn ≠ 0 then
        max word_score
          (((8 : ℚ)/10) * ((charOverlapCard pn rn : ℚ) / (charSetCard rn : ℚ)))
      else word_score

/-- Splitting with a non-empty accumulator always produces a word. -/
theorem pyWordsAux_cons_ne_nil (l : List Char) (a : Char) (acc : List Char) :
    pyWordsAux l (a :: acc) ≠ [] := by
  induction l generalizing a acc with
  | nil => simp [pyWordsAux]
  | cons c rest ih =>
    simp only [pyWordsAux, List.isEmpty_cons]
    by_cases hc : pyIsSpace c
    · simp [hc]
    · simpa [hc] using ih c (a :: acc)

/-- A string that splits into no words consists of whitespace only. -/
theorem pyWordsAux_nil_all_space (l : List Char) :
    pyWordsAux l [] = [] → ∀ c ∈ l, pyIsSpace c = true := by
  induction l with
  | nil => simp
  | cons c rest ih =>
    intro h d hd
    by_cases hc : pyIsSpace c
    · simp only [pyWordsAux, if_pos hc, List.isEmpty_nil, if_pos] at h
      rcases List.mem_cons.mp hd with rfl | hd
      · exact hc
      · exact ih h d hd
    · exfalso
      simp only [pyWordsAux, if_neg hc] at h
      exact pyWordsAux_cons_ne_nil rest c [] h

/-- An alphanumeric character is never whitespace. -/
theorem pyIsAlnum_not_space (c : Char) (h : pyIsAlnum c = true) :
    pyIsSpace c = false := by
  rw [← Bool.not_eq_true]
  simp only [pyIsAlnum, Bool.or_eq_true, Bool.and_eq_true, decide_eq_true_eq] at h
  simp only [pyIsSpace, Bool.or_eq_true, Bool.and_eq_true, decide_eq_true_eq]
  omega

/-- A string with zero tokens has no alphanumeric characters at all. -/
theorem wordSetCard_zero_charSetCard (s : String)
    (h : wordSetCard s = 0) : charSetCard s = 0 := by
  have hw : pyWords s = [] := by
    have h0 : (pyWords s).toFinset = ∅ := Finset.card_eq_zero.mp h
    exact List.toFinset_eq_empty_iff _ |>.mp h0
  have hall : ∀ c ∈ s.data, pyIsSpace c = true :=
    pyWordsAux_nil_all_space s.data hw
  have hf : s.data.filter pyIsAlnum = [] := by
    refine List.filter_eq_nil_iff.mpr ?_
    intro c hc hAl
    have h2 := pyIsAlnum_not_space c hAl
    rw [hall c hc] at h2
    exact Bool.noConfusion h2
  simp [charSetCard, alnumSet, hf]

/-- A ratio of a cardinality over a larger positive cardinality is at
most one. -/
theorem natRatio_le_one {a b : Nat} (hab : a ≤ b) (hb : b ≠ 0) :
    (a : ℚ) / (b : ℚ) ≤ 1 := by
  have hb0 : (0 : ℚ) < (b : ℚ) := by
    exact_mod_cast Nat.pos_of_ne_zero hb
  rw [div_le_one hb0]
  exact_mod_cast hab

/-- The word-overlap numerator never exceeds the denominator. -/
theorem wordOverlapCard_le (p r : String) : wordOverlapCard p r ≤ wordSetCard r :=
  Finset.card_le_card Finset.inter_subset_right

/-- The character-overlap numerator never exceeds the denominator. -/
theorem charOverlapCard_le (p r : String) : charOverlapCard p r ≤ charSetCard r :=
  Finset.card_le_card Finset.inter_subset_right

/-- The fields of a per-case record that do not depend on the outcome:
index, input and reference are copied from the case. -/
theorem runCase_fields (invoke : String → Except String String)
    (evalExact : String → String → Except String ℚ) (i : Nat) (tc : TestCase) :
    (runCase invoke evalExact i tc).test_case = i ∧
    (runCase invoke evalExact i tc).input = tc.input ∧
    (runCase invoke evalExact i tc).reference = tc.reference := by
  cases h : invoke tc.input with
  | error e => simp [runCase, h]
  | ok raw =>
    cases h2 : evalExact (extract_translation_from_response raw) tc.reference with
    | error e => simp [runCase, h, h2]
    | ok s => simp [runCase, h, h2]

/-- The loop produces one result per case. -/
theorem evalLoop_length (invoke : String → Except String String)
    (evalExact : String → String → Except String ℚ)
    (dataset : List TestCase) : ∀ k,
    (evalLoop invoke evalExact k dataset).length = dataset.length := by
  induction dataset with
  | nil => intro k; rfl
  | cons tc rest ih => intro k; simp [evalLoop, ih (k + 1)]

/-- The result at position `i` of the loop started at `k` is the
record of case `i` with index `k + i`. -/
theorem evalLoop_getElem? (invoke : String → Except String String)
    (evalExact : String → String → Except String ℚ)
    (dataset : List TestCase) : ∀ k i,
    (evalLoop invoke evalExact k dataset)[i]? =
      (dataset[i]?).map (fun tc => runCase invoke evalExact (k + i) tc) := by
  induction dataset with
  | nil => intro k i; simp [evalLoop]
  | cons tc rest ih =>
    intro k i
    cases i with
    | zero => simp [evalLoop]
    | succ n =>
      simp only [evalLoop, List.getElem?_cons_succ]
      rw [ih (k + 1) n, show k + 1 + n = k + (n + 1) from by omega]

/-- Claim C1: for every pair of strings, `calculate_similarity_score`
follows exactly the claimed precedence — empty-argument guard, then
normalised equality giving 1.0, then the word-overlap ratio (0.0 for a
zero-token reference), returned directly when at least 0.7, otherwise
combined as `max(word_score, 0.8 * char_ratio)` when the reference has
an alphanumeric character and `word_score` alone when it has none. -/
theorem calculate_similarity_score_eq_spec (prediction reference : String) :
    calculate_similarity_score prediction reference =
      similaritySpec prediction reference := by
  simp only [calculate_similarity_score, similaritySpec]
  by_cases h1 : prediction = "" ∨ reference = ""
  · simp [h1]
  · simp only [if_neg h1]
    by_cases h2 : pyStrip (pyLower prediction) = pyStrip (pyLower reference)
    · simp [h2]
    · simp only [if_neg h2]
      by_cases h3 : wordSetCard (pyStrip (pyLower reference)) = 0
      · have hc := wordSetCard_zero_charSetCard _ h3
        simp only [if_pos h3, hc]
        norm_num
      · simp only [if_neg h3]
        by_cases h4 : (7 : ℚ)/10 ≤
            (wordOverlapCard (pyStrip (pyLower prediction)) (pyStrip (pyLower reference)) : ℚ) /
              (wordSetCard (pyStrip (pyLower reference)) : ℚ)
        · simp [h4]
        · simp only [if_neg h4]
          by_cases h5 : charSetCard (pyStrip (pyLower reference)) = 0
          · simp [h5]
          · simp only [if_neg h5, if_pos h5, ne_eq, not_false_iff, if_pos]
            rw [mul_comm]

/-- Claim C4: the similarity scorer is a total function of its two
string arguments (total by construction in this model — the `try`
around the character step has nothing to re-raise), and its result
always lies in the closed interval `[0, 1]`. -/
theorem calculate_similarity_score_bounds (prediction reference : String) :
    0 ≤ calculate_similarity_score prediction reference ∧
    calculate_similarity_score prediction reference ≤ 1 := by
  simp only [calculate_similarity_score]
  split_ifs with h1 h2 h3 h4 h5
  · norm_num
  · norm_num
  · norm_num
  · exact ⟨by positivity, natRatio_le_one (wordOverlapCard_le _ _) h3⟩
  · exact ⟨by positivity, natRatio_le_one (wordOverlapCard_le _ _) h3⟩
  · constructor
    · exact le_max_of_le_left (by positivity)
    · refine max_le (natRatio_le_one (wordOverlapCard_le _ _) h3) ?_
      have hcs := natRatio_le_one
        (charOverlapCard_le (pyStrip (pyLower prediction)) (pyStrip (pyLower reference))) h5
      have hcs0 : (0 : ℚ) ≤
          (charOverlapCard (pyStrip (pyLower prediction)) (pyStrip (pyLower reference)) : ℚ) /
            (charSetCard (pyStrip (pyLower reference)) : ℚ) := by positivity
      nlinarith

/-- Claim C10: any two non-empty strings that normalise (lower-case
plus strip) to the same string score exactly 1.0 — the empty-input
guard tests the raw strings, so even two whitespace-only strings that
both normalise to the empty string take the exact-match branch. -/
theorem calculate_similarity_score_normalized_one (prediction reference : String)
    (hp : prediction ≠ "") (hr : reference ≠ "")
    (h : pyStrip (pyLower prediction) = pyStrip (pyLower reference)) :
    calculate_similarity_score prediction reference = 1 := by
  simp only [calculate_similarity_score]
  rw [if_neg (not_or.mpr ⟨hp, hr⟩), if_pos h]

/-- Witness for claim C10 at the claimed example: a single space
against a single tab — both non-empty, both normalising to the empty
string — scores 1.0. -/
theorem calculate_similarity_score_normalized_one_witness :
    (" " : String) ≠ "" ∧ ("\t" : String) ≠ "" ∧
    pyStrip (pyLower (" ")) = pyStrip (pyLower ("\t")) ∧
    calculate_similarity_score (" ") ("\t") = 1 :=
  ⟨by decide, by decide, by decide,
    calculate_similarity_score_normalized_one (" ") ("\t")
      (by decide) (by decide) (by decide)⟩

/-- Claim C6: the gate passes (exit status 0) exactly when the
aggregate percentage reaches the fixed threshold 50.0, fails (exit
status 1) exactly below it, and at the boundary 49.999 fails while
exactly 50.0 passes. -/
theorem gate_threshold_spec :
    BLEU_THRESHOLD = 50 ∧
    (∀ x : ℚ, gateExitCode x = 0 ↔ BLEU_THRESHOLD ≤ x) ∧
    (∀ x : ℚ, gateExitCode x = 1 ↔ x < BLEU_THRESHOLD) ∧
    gateExitCode ((49999 : ℚ)/1000) = 1 ∧
    gateExitCode 50 = 0 := by
  refine ⟨rfl, ?_, ?_, ?_, ?_⟩
  · intro x
    unfold gateExitCode
    split_ifs with h <;> simp [h]
  · intro x
    unfold gateExitCode
    split_ifs with h
    · simp [not_lt.mpr h]
    · simp [not_le.mp h]
  · unfold gateExitCode BLEU_THRESHOLD
    rw [if_neg (by norm_num)]
  · unfold gateExitCode BLEU_THRESHOLD
    rw [if_pos (by norm_num)]

/-- Scenario A's four result records: exact scores 1, 0, 1, 0 and
empty predictions. -/
def scenarioAResults : List EvalResult :=
  [{ test_case := 0, input := "i0", reference := "r0", raw_prediction := "",
     prediction := "", score := 1, error := none },
   { test_case := 1, input := "i1", reference := "r1", raw_prediction := "",
     prediction := "", score := 0, error := none },
   { test_case := 2, input := "i2", reference := "r2", raw_prediction := "",
     prediction := "", score := 1, error := none },
   { test_case := 3, input := "i3", reference := "r3", raw_prediction := "",
     prediction := "", score := 0, error := none }]

/-- An empty prediction scores zero similarity against anything. -/
theorem calculate_similarity_score_empty_left (r : String) :
    calculate_similarity_score ("") r = 0 := by
  simp [calculate_similarity_score]

/-- Claim C2: the aggregator returns 0.0 on an empty result list, and
otherwise `100 * Σ max(exact_score, similarity) / N`; in particular on
four records with exact scores 1, 0, 1, 0 and empty predictions it
returns exactly 50.0. -/
theorem calculate_bleu_score_spec :
    calculate_bleu_score [] = 0 ∧
    (∀ (r : EvalResult) (rest : List EvalResult),
      calculate_bleu_score (r :: rest) =
        100 * ((r :: rest).map
            (fun x => max x.score
              (calculate_similarity_score x.prediction x.reference))).sum /
          (((r :: rest).length : ℚ))) ∧
    calculate_bleu_score scenarioAResults = 50 := by
  refine ⟨rfl, ?_, ?_⟩
  · intro r rest
    have hne : (r :: rest).isEmpty = false := rfl
    simp only [calculate_bleu_score, hne, Bool.false_eq_true, if_false]
    rw [show (fun x : EvalResult =>
        max x.score (calculate_similarity_score x.prediction x.reference)) =
      finalScore from rfl]
    ring
  · simp only [calculate_bleu_score, scenarioAResults, finalScore, List.map_cons,
      List.map_nil, List.sum_cons, List.sum_nil, List.length_cons, List.length_nil,
      calculate_similarity_score_empty_left]
    norm_num

/-- Claim C3: for every dataset and any behaviour of the external
capabilities, the runner produces exactly one result per case, in
dataset order — the record at position `i` carries case index `i` and
case `i`'s input and reference — regardless of how many individual
invocations fail. -/
theorem evaluate_translations_coverage
    (invoke : String → Except String String)
    (evalExact : String → String → Except String ℚ)
    (dataset : List TestCase) :
    (evaluate_translations invoke evalExact dataset).length = dataset.length ∧
    ∀ i : Nat,
      ((evaluate_translations invoke evalExact dataset)[i]?).map
          (fun res => (res.test_case, res.input, res.reference)) =
        (dataset[i]?).map (fun tc => (i, tc.input, tc.reference)) := by
  constructor
  · exact evalLoop_length invoke evalExact dataset 0
  · intro i
    rw [evaluate_translations, evalLoop_getElem? invoke evalExact dataset 0 i]
    cases h : dataset[i]? with
    | none => rfl
    | some tc =>
      obtain ⟨hA, hB, hC⟩ := runCase_fields invoke evalExact (0 + i) tc
      simp only [Nat.zero_add] at hA hB hC
      simp [hA, hB, hC]

/-- Claim C7: a case whose processing raises an exception — during the
external translation invocation, or during scoring once the invocation
succeeded — is recorded as an empty, zero-scored result carrying the
exception message, and every case whose calls succeed still yields its
normal record — a single case failure never aborts the batch. -/
theorem evaluate_translations_error_isolation
    (invoke : String → Except String String)
    (evalExact : String → String → Except String ℚ)
    (dataset : List TestCase) :
    (∀ (i : Nat) (tc : TestCase) (e : String),
      dataset[i]? = some tc →
      invoke tc.input = Except.error e →
      (evaluate_translations invoke evalExact dataset)[i]? =
        some { test_case := i, input := tc.input, reference := tc.reference,
               raw_prediction := "", prediction := "", score := 0,
               error := some e }) ∧
    (∀ (i : Nat) (tc : TestCase) (raw e : String),
      dataset[i]? = some tc →
      invoke tc.input = Except.ok raw →
      evalExact (extract_translation_from_response raw) tc.reference =
        Except.error e →
      (evaluate_translations invoke evalExact dataset)[i]? =
        some { test_case := i, input := tc.input, reference := tc.reference,
               raw_prediction := "", prediction := "", score := 0,
               error := some e }) ∧
    ∀ (j : Nat) (tc2 : TestCase) (raw : String) (s : ℚ),
      dataset[j]? = some tc2 →
      invoke tc2.input = Except.ok raw →
      evalExact (extract_translation_from_response raw) tc2.reference =
        Except.ok s →
      (evaluate_translations invoke evalExact dataset)[j]? =
        some { test_case := j, input := tc2.input, reference := tc2.reference,
               raw_prediction := raw,
               prediction := extract_translation_from_response raw,
               score := s, error := none } := by
  refine ⟨?_, ?_, ?_⟩
  · intro i tc e hi he
    rw [evaluate_translations, evalLoop_getElem? invoke evalExact dataset 0 i, hi,
      show 0 + i = i from by omega]
    simp [runCase, he]
  · intro i tc raw e hi hok hs
    rw [evaluate_translations, evalLoop_getElem? invoke evalExact dataset 0 i, hi,
      show 0 + i = i from by omega]
    simp [runCase, hok, hs]
  · intro j tc2 raw s hj hok hs
    rw [evaluate_translations, evalLoop_getElem? invoke evalExact dataset 0 j, hj,
      show 0 + j = j from by omega]
    simp [runCase, hok, hs]

/-- Fixture agent for the claim C7 witness: raises on the first case,
answers the rest. -/
def wInvoke7 : String → Except String String :=
  fun s => if s = "bad" then Except.error "boom" else Except.ok ("ok 'x'")

/-- Fixture exact-match evaluator for the claim C7 witness: raises on
the reference of the second case, scores the rest by equality. -/
def wEval7 : String → String → Except String ℚ :=
  fun p r =>
    if r = "noeval" then Except.error "evalboom"
    else Except.ok (if p = r then 1 else 0)

/-- Fixture dataset for the claim C7 witness: the first case's
invocation raises, the second case's scoring raises, the third case
succeeds. -/
def wDataset7 : List TestCase :=
  [{ input := "bad", reference := "r0" },
   { input := "good", reference := "noeval" },
   { input := "good", reference := "x" }]

/-- Witness for claim C7: with a three-case dataset whose first
invocation raises and whose second case fails during scoring, the
first two records are the zero-scored error records and the third case
still produces its normal record. -/
theorem evaluate_translations_error_isolation_witness :
    (evaluate_translations wInvoke7 wEval7 wDataset7)[0]? =
      some { test_case := 0, input := "bad", reference := "r0",
             raw_prediction := "", prediction := "", score := 0,
             error := some "boom" } ∧
    (evaluate_translations wInvoke7 wEval7 wDataset7)[1]? =
      some { test_case := 1, input := "good", reference := "noeval",
             raw_prediction := "", prediction := "", score := 0,
             error := some "evalboom" } ∧
    (evaluate_translations wInvoke7 wEval7 wDataset7)[2]? =
      some { test_case := 2, input := "good", reference := "x",
             raw_prediction := "ok 'x'",
             prediction := extract_translation_from_response ("ok 'x'"),
             score := 1, error := none } :=
  ⟨(evaluate_translations_error_isolation wInvoke7 wEval7 wDataset7).1 0
      { input := "bad", reference := "r0" } "boom" rfl
      (by simp [wInvoke7]),
   (evaluate_translations_error_isolation wInvoke7 wEval7 wDataset7).2.1 1
      { input := "good", reference := "noeval" } ("ok 'x'") "evalboom" rfl
      (by simp [wInvoke7])
      (by simp [wEval7]),
   (evaluate_translations_error_isolation wInvoke7 wEval7 wDataset7).2.2 2
      { input := "good", reference := "x" } ("ok 'x'") 1
      rfl (by simp [wInvoke7])
      (by rw [wEval7, show extract_translation_from_response ("ok 'x'") = "x" from by decide]
          simp)⟩

/-- Claim C5 counterexample: on `"translation is ' a ' is ' b '"` the
first rule matches and its greedy wildcard makes the capture the LAST
`is`-quoted group of the line (then stripped), so the function returns
`"b"` — not the first (leftmost) captured quoted substring, which is
`" a "`, as the second conjunct exhibits. -/
theorem extract_translation_first_capture_cex :
    extract_translation_from_response ("translation is ' a ' is ' b '") = "b" ∧
    searchIsQuoted ("translation is ' a ' is ' b '").data = some ((" a ").data) :=
  ⟨by decide, by decide⟩

/-- Claim C5 (amended): empty input gives empty output; otherwise the
three rules are tried in their fixed order, and the result is the
stripped capture of the leftmost `re.search` match of the first rule
that matches (for the first rule the greedy wildcard selects the last
`is`-quoted group of the line, not the leftmost); if no rule matches,
the trimmed raw response with the literal prefixes stripped
sequentially. -/
theorem extract_translation_eq_spec (response : String) :
    extract_translation_from_response response = extractSpec response := by
  simp only [extract_translation_from_response, extractSpec, extractionRules]
  by_cases h0 : response = ""
  · simp [h0]
  · simp only [if_neg h0]
    cases h1 : searchTranslationIs response.data with
    | some cap => simp [List.findSome?_cons, h1]
    | none =>
      cases h2 : searchIsQuoted response.data with
      | some cap => simp [List.findSome?_cons, h1, h2]
      | none =>
        cases h3 : searchQuoted response.data with
        | some cap => simp [List.findSome?_cons, h1, h2, h3]
        | none => simp [List.findSome?_cons, h1, h2, h3]

/-- Claim C8 counterexample: on Scenario C's response the FIRST
pattern (`translation.*is ...`) already matches, so the first matching
rule is not the second one as claimed. -/
theorem scenarioC_first_rule_cex :
    firstMatchingRule ("The translation is 'nube nómina'.") ≠ some 1 := by decide

/-- Claim C8 (amended): the extractor returns `nube nómina` for
Scenario C's response, and the first rule of the ordered pattern list
that matches is the FIRST rule (the `translation ... is '...'`
pattern), which captures the same substring. -/
theorem scenarioC_extraction :
    extract_translation_from_response ("The translation is 'nube nómina'.") =
      "nube nómina" ∧
    firstMatchingRule ("The translation is 'nube nómina'.") = some 0 :=
  ⟨by decide, by decide⟩

/-- A Scenario D record: prediction far from the reference, zero exact
score. -/
def scenarioDResult : EvalResult :=
  { test_case := 0, input := "Spanish | cloud payroll", reference := "nube nómina",
    raw_prediction := "incorrect translation", prediction := "incorrect translation",
    score := 0, error := none }

/-- The Scenario D similarity value: zero word overlap, character
overlap 4/8 discounted by 0.8 gives 0.4. -/
theorem scenarioD_similarity :
    calculate_similarity_score ("incorrect translation") ("nube nómina") = 2/5 := by
  have h0 : wordOverlapCard (pyStrip (pyLower ("incorrect translation")))
      (pyStrip (pyLower ("nube nómina"))) = 0 := by decide
  have h1 : wordSetCard (pyStrip (pyLower ("nube nómina"))) = 2 := by decide
  have h2 : charOverlapCard (pyStrip (pyLower ("incorrect translation")))
      (pyStrip (pyLower ("nube nómina"))) = 4 := by decide
  have h3 : charSetCard (pyStrip (pyLower ("nube nómina"))) = 8 := by decide
  have h4 : ¬ (("incorrect translation" : String) = "" ∨ ("nube nómina" : String) = "") := by
    decide
  have h5 : ¬ (pyStrip (pyLower ("incorrect translation")) =
      pyStrip (pyLower ("nube nómina"))) := by decide
  simp only [calculate_similarity_score, h0, h1, h2, h3, if_neg h4, if_neg h5]
  norm_num

/-- The Scenario D aggregate value over two identical cases. -/
theorem scenarioD_bleu :
    calculate_bleu_score [scenarioDResult, scenarioDResult] = 40 := by
  have hne : ([scenarioDResult, scenarioDResult]).isEmpty = false := rfl
  simp only [calculate_bleu_score, hne, Bool.false_eq_true, if_false,
    List.map_cons, List.map_nil, List.sum_cons, List.sum_nil, finalScore,
    scenarioDResult, List.length_cons, List.length_nil, scenarioD_similarity]
  norm_num

/-- Claim C9 counterexample: the aggregate over two Scenario D cases
is 40.0, not 0.0 — the character-overlap fallback contributes 0.4 per
case. -/
theorem scenarioD_aggregate_cex :
    calculate_bleu_score [scenarioDResult, scenarioDResult] = 40 ∧ (40 : ℚ) ≠ 0 :=
  ⟨scenarioD_bleu, by norm_num⟩

/-- Claim C9 (amended): the word overlap is 0/2 = 0.0, but the
per-case score is 0.4 via the discounted character fallback, so the
aggregate over two such zero-exact-score cases is 40.0 — and the gate
against threshold 50.0 still fails. -/
theorem scenarioD_outcome :
    wordOverlapCard (pyStrip (pyLower ("incorrect translation")))
        (pyStrip (pyLower ("nube nómina"))) = 0 ∧
    wordSetCard (pyStrip (pyLower ("nube nómina"))) = 2 ∧
    calculate_similarity_score ("incorrect translation") ("nube nómina") = 2/5 ∧
    calculate_bleu_score [scenarioDResult, scenarioDResult] = 40 ∧
    gateExitCode (calculate_bleu_score [scenarioDResult, scenarioDResult]) = 1 := by
  refine ⟨by decide, by decide, scenarioD_similarity, scenarioD_bleu, ?_⟩
  rw [scenarioD_bleu]
  unfold gateExitCode BLEU_THRESHOLD
  rw [if_neg (by norm_num)]
